import Mathlib

/-!
Shallow embedding of the daily-briefing behavior-tree agent
(`daily_briefing_abt.py`): the sub-agents (`WeatherAgent`, `NewsAgent`,
`SynthesizerAgent`), the behavior-tree nodes (`SubAgentAction`,
`BriefingCondition`), the fixed tree built by `_setup_behavior_tree`
(a py_trees `Sequence(memory=True)` over a `Parallel(SuccessOnAll)`
gathering phase, a readiness condition and a synthesis action), and the
engine entry point `generate_briefing`.

External effects are made explicit parameters:
* each OpenAI chat-completion call is an `ApiOutcome` (the call raised,
  returned text with no parsable JSON, or returned parsed JSON) or, for
  the synthesizer, a `SynthApi` outcome (raised, or returned text);
* each `datetime.now()` reading is a string parameter.

Python dict values stored by this program are strings, ints, lists of
strings, and `None` (a parsed weather JSON field can hold a null, which
`dict.get` passes through into the payload), modelled by `PVal`; dicts
are association lists.  The tick
semantics of the py_trees composites used by the source
(`Sequence(memory=True)`, `Parallel(policy=SuccessOnAll())`,
`BehaviourTree.tick`) are embedded directly in `parallelTick`/`rootTick`:
py_trees ticks children of a composite sequentially, in list order, on
the single calling thread; the parallel composite ticks every child and
only then combines their statuses, and the sequence stops at the first
child that does not return SUCCESS.
-/

/-- Python values that this program stores in its dictionaries:
strings, ints, lists of strings (the headline lists), and `None`
(a null in a parsed weather JSON field). -/
inductive PVal where
  | str : String → PVal
  | int : Int → PVal
  | strList : List String → PVal
  | pynone : PVal
deriving DecidableEq, Repr

/-- A Python dict with string keys, as an association list. -/
def Dict := List (String × PVal)
deriving DecidableEq, Repr

/-- Python `str()` of a value, as used by f-string interpolation.
`str` of a Python list uses repr quotes around the elements. -/
def pyStr : PVal → String
  | .str s => s
  | .int n => toString n
  | .strList l =>
      "[" ++ String.intercalate ", " (l.map (fun s => "\x27" ++ s ++ "\x27")) ++ "]"
  | .pynone => "None"

/-- Python `d.get(key)`: first binding of `key`, if any. -/
def dictGet : Dict → String → Option PVal
  | [], _ => none
  | (k, v) :: rest, key => if k = key then some v else dictGet rest key

/-- Python `d.get(key, default)`. -/
def dictGetD (d : Dict) (key : String) (dflt : PVal) : PVal :=
  (dictGet d key).getD dflt

/-- Python's whitespace characters for `str.strip()`. -/
def isPyWs (c : Char) : Bool :=
  c == ' ' || c == '\t' || c == '\n' || c == '\r' || c == '\x0b' || c == '\x0c'

/-- Python `str.strip()`: drop leading and trailing whitespace
(structurally, so that it evaluates by `decide`/`rfl`). -/
def pyStrip (s : String) : String :=
  ⟨((s.data.dropWhile isPyWs).reverse.dropWhile isPyWs).reverse⟩

/-- Python `str.lower()`, per character (ASCII case mapping). -/
def pyLowerStr (s : String) : String :=
  ⟨s.data.map Char.toLower⟩

/-- Outcome of one OpenAI chat-completion call in a gathering agent:
the call raised, it returned text containing no parsable JSON, or it
returned text from which JSON of type `α` was extracted. -/
inductive ApiOutcome (α : Type) where
  | err
  | noJson
  | json (value : α)
deriving DecidableEq, Repr

/-- The JSON object the weather backend may return.  Each field may be
absent (`none`; the source's `weather_json.get(field, default)` then
substitutes the default) or present with an arbitrary JSON value —
including null (`PVal.pynone`) or a non-string where a string is
expected — which `dict.get` passes through unchanged. -/
structure WeatherJson where
  temperature : Option PVal := none
  condition : Option PVal := none
  humidity : Option PVal := none
deriving DecidableEq, Repr

/-- The `fallback_data` table of `WeatherAgent.get_weather`, keyed by
location, giving (temperature, condition, humidity); `dict.get` is an
equality lookup, embedded as an if-chain. -/
def weatherFallbackTable (location : String) : Option (Int × String × Int) :=
  if location = "New York" then some (22, "Partly Cloudy", 65)
  else if location = "London" then some (15, "Rainy", 80)
  else if location = "Tokyo" then some (25, "Sunny", 45)
  else if location = "San Francisco" then some (18, "Foggy", 75)
  else if location = "Default" then some (20, "Clear", 50)
  else none

/-- `WeatherAgent.get_weather`: on extracted JSON, build the payload with
per-field defaults (20, "Clear", 50); on an API error or unparsable
response, fall back to the `fallback_data` table, defaulting to the
`"Default"` entry `(20, "Clear", 50)`.  `now` is `datetime.now().isoformat()`. -/
def get_weather (location : String) (api : ApiOutcome WeatherJson) (now : String) : Dict :=
  match api with
  | .json wj =>
      [("location", .str location),
       ("temperature", wj.temperature.getD (.int 20)),
       ("condition", wj.condition.getD (.str "Clear")),
       ("humidity", wj.humidity.getD (.int 50)),
       ("timestamp", .str now)]
  | _ =>
      let w := (weatherFallbackTable location).getD (20, "Clear", 50)
      [("location", .str location),
       ("temperature", .int w.1),
       ("condition", .str w.2.1),
       ("humidity", .int w.2.2),
       ("timestamp", .str now)]

/-- The `"technology"` entry of `fallback_headlines` in
`NewsAgent.get_top_headlines`. -/
def technologyHeadlines : List String :=
  ["AI Breakthrough: New Language Model Achieves Human-Level Performance",
   "Tech Giants Report Strong Q3 Earnings Despite Market Volatility",
   "Quantum Computing Milestone Reached by Leading Research Team",
   "Cybersecurity Concerns Rise as Attacks Become More Sophisticated",
   "New Smartphone Technology Promises Longer Battery Life"]

/-- The `"world"` entry of `fallback_headlines`. -/
def worldHeadlines : List String :=
  ["Global Climate Summit Announces New Sustainability Initiatives",
   "International Trade Agreements Show Positive Economic Impact",
   "Space Agency Successfully Launches New Mars Exploration Mission",
   "Diplomatic Relations Strengthen Between Allied Nations",
   "Education Reform Shows Promising Results in Recent Studies"]

/-- The `"business"` entry of `fallback_headlines`. -/
def businessHeadlines : List String :=
  ["Stock Markets Reach New Heights Amid Economic Recovery",
   "Renewable Energy Sector Sees Record Investment Growth",
   "Cryptocurrency Market Shows Signs of Stabilization",
   "Small Business Lending Programs See Increased Participation",
   "Remote Work Trends Continue to Shape Corporate Policies"]

/-- `fallback_headlines.get(key, ...)` lookup of
`NewsAgent.get_top_headlines` (called on an already lowercased key). -/
def newsFallbackLookup (key : String) : Option (List String) :=
  if key = "technology" then some technologyHeadlines
  else if key = "world" then some worldHeadlines
  else if key = "business" then some businessHeadlines
  else none

/-- Python list slice `l[:n]`, including the negative-index case. -/
def pySliceTo (n : Int) (l : List α) : List α :=
  if 0 ≤ n then l.take n.toNat else l.take (l.length - (-n).toNat)

/-- `NewsAgent.get_top_headlines`: on extracted JSON (an array of
headlines) keep the first `count`; on an API error or unparsable
response, look the lowercased topic up in `fallback_headlines`,
defaulting to the `"world"` list, and keep the first `count`. -/
def get_top_headlines (topic : String) (count : Int)
    (api : ApiOutcome (List String)) (now : String) : Dict :=
  match api with
  | .json arr =>
      let headlines := pySliceTo count arr
      [("topic", .str topic),
       ("headlines", .strList headlines),
       ("count", .int headlines.length),
       ("timestamp", .str now)]
  | _ =>
      let headlines := pySliceTo count ((newsFallbackLookup (pyLowerStr topic)).getD worldHeadlines)
      [("topic", .str topic),
       ("headlines", .strList headlines),
       ("count", .int headlines.length),
       ("timestamp", .str now)]

/-- Python exceptions that can arise inside the synthesizer's work:
a failed backend call, an attribute access on a non-string (or `None`)
value, an iteration / `len` over a non-iterable value. -/
inductive PyErr where
  | apiError
  | attributeError
  | typeError
deriving DecidableEq, Repr

/-- Outcome of the synthesizer's OpenAI call: the call raised, or it
returned message text. -/
inductive SynthApi where
  | err
  | ok (text : String)
deriving DecidableEq, Repr

/-- Python `str.title()` for one character stream: a letter is
uppercased after a non-letter and lowercased after a letter. -/
def titleAux : Bool → List Char → List Char
  | _, [] => []
  | prevAlpha, c :: cs =>
      (if c.isAlpha then (if prevAlpha then c.toLower else c.toUpper) else c)
        :: titleAux c.isAlpha cs

/-- Python `str.title()`. -/
def pyTitleStr (s : String) : String := ⟨titleAux false s.data⟩

/-- Python `v.title()` on a dict value: raises unless `v` is a string. -/
def pyTitle : PVal → Except PyErr String
  | .str s => .ok (pyTitleStr s)
  | _ => .error .attributeError

/-- Python `v.lower()` on a dict value: raises unless `v` is a string. -/
def pyLower : PVal → Except PyErr String
  | .str s => .ok (pyLowerStr s)
  | _ => .error .attributeError

/-- Python iteration over a dict value yielding strings: a list yields
its elements, a string yields its characters, an int raises. -/
def pyIterStrs : PVal → Except PyErr (List String)
  | .strList l => .ok l
  | .str s => .ok (s.data.map (fun c => String.singleton c))
  | _ => .error .typeError

/-- Python `len(v)` on a dict value: raises on an int. -/
def pyLen : PVal → Except PyErr Nat
  | .strList l => .ok l.length
  | .str s => .ok s.length
  | _ => .error .typeError

/-- The guarded conditional
`condition.lower() if condition != "N/A" else "current"` interpolated
into the fallback template's summary. -/
def condLowerExpr (condition : PVal) : Except PyErr String :=
  if condition = PVal.str "N/A" then pure "current" else pyLower condition

/-- The fallback template built by `SynthesizerAgent.synthesize_briefing`
in its `except` handler (the non-ASCII escapes reproduce the source
file's literal characters).  `t` is `topic.title()`, `hs` the iterated
headlines, `condStr` the guarded `condition.lower()`, `n` `len(headlines)`. -/
def fallbackBriefingText (today : String) (location temperature condition humidity topic : PVal)
    (t : String) (hs : List String) (condStr : String) (n : Nat) : String :=
  "ğŸŒ… Daily Briefing - " ++ today ++ "\n\n" ++
  "ğŸ“ Weather Update for " ++ pyStr location ++ ":\n" ++
  "Temperature: " ++ pyStr temperature ++ "Â°C\n" ++
  "Conditions: " ++ pyStr condition ++ "\n" ++
  (if humidity ≠ PVal.str "N/A" then "Humidity: " ++ pyStr humidity ++ "%" else "") ++ "\n\n" ++
  "ğŸ“° Top " ++ t ++ " News Headlines:\n" ++
  String.join ((hs.enum).map (fun p => toString (p.1 + 1) ++ ". " ++ p.2 ++ "\n")) ++
  "\nğŸ“Š Briefing Summary:\n" ++
  "Today\x27s weather in " ++ pyStr location ++ " shows " ++ condStr ++
  " conditions with a temperature of " ++ pyStr temperature ++ "Â°C.\n" ++
  "In " ++ pyStr topic ++ " news, we\x27re seeing " ++ toString n ++
  " significant developments that may impact your day.\n\n" ++
  "Stay informed and have a great day! ğŸŒŸ\n"

/-- `SynthesizerAgent.synthesize_briefing`.  Reads the payload fields
with `dict.get` defaults; raises (error result) when either input is
`None`, as the source's attribute accesses on `None` do.  In the `try`
block the prompt construction iterates the headlines and titles the
topic (either may raise, and is then caught) before the backend call;
on any caught error the `except` handler builds the fallback template,
whose own `title`/`lower`/iteration/`len` calls raise uncaught.  The
prompt strings themselves are built from infallible f-string
interpolations and do not influence the result, so their text is not
reproduced here. -/
def synthesize_briefing (weather_data news_data : Option Dict)
    (api : SynthApi) (today : String) : Except PyErr String :=
  match weather_data, news_data with
  | some wd, some nd =>
      let location := dictGetD wd "location" (.str "Unknown")
      let temperature := dictGetD wd "temperature" (.str "N/A")
      let condition := dictGetD wd "condition" (.str "N/A")
      let humidity := dictGetD wd "humidity" (.str "N/A")
      let topic := dictGetD nd "topic" (.str "general")
      let headlines := dictGetD nd "headlines" (.strList [])
      let attempt : Except PyErr String := do
        let _ ← pyIterStrs headlines
        let _ ← pyTitle topic
        match api with
        | .err => Except.error .apiError
        | .ok text => pure (pyStrip text)
      match attempt with
      | .ok briefing => .ok briefing
      | .error _ => do
          let t ← pyTitle topic
          let hs ← pyIterStrs headlines
          let condStr ← condLowerExpr condition
          let n ← pyLen headlines
          .ok (pyStrip (fallbackBriefingText today location temperature condition humidity topic
                t hs condStr n))
  | _, _ => .error .attributeError

/-- `py_trees.common.Status` (`NodeStatus` of the spec). -/
inductive Status where
  | success
  | failure
  | running
deriving DecidableEq, Repr

/-- The destination-slot names (`context_key` values) used by the three
`SubAgentAction` nodes of `_setup_behavior_tree`. -/
inductive SlotName where
  | weather
  | news
  | briefing
deriving DecidableEq, Repr

/-- The run context installed by `generate_briefing`
(`{"location": ..., "topic": ..., "news_count": ...}`); a field is
`none` when its key is absent, as in the initial empty context dict. -/
structure RunContext where
  location : Option String
  topic : Option String
  news_count : Option Int
deriving DecidableEq, Repr

/-- The `shared_state` dict of `_setup_behavior_tree`: the run context
and one slot per task output, each `None` or a dict. -/
structure SharedState where
  context : RunContext
  weather_data : Option Dict
  news_data : Option Dict
  briefing : Option Dict
deriving DecidableEq, Repr

/-- The `shared_state` as initialized by `_setup_behavior_tree`:
empty context, all output slots `None`. -/
def initialState : SharedState :=
  { context := { location := none, topic := none, news_count := none },
    weather_data := none, news_data := none, briefing := none }

/-- Read a slot of the shared state by name. -/
def SharedState.getSlot (s : SharedState) : SlotName → Option Dict
  | .weather => s.weather_data
  | .news => s.news_data
  | .briefing => s.briefing

/-- `shared_state[context_key] = data`: write one slot by name. -/
def SharedState.setSlot (s : SharedState) : SlotName → Dict → SharedState
  | .weather, d => { s with weather_data := some d }
  | .news, d => { s with news_data := some d }
  | .briefing, d => { s with briefing := some d }

/-- What one call of a sub-agent's `execute` does: it raises, or it
returns a result dict `{"status": ..., "data": ..., "agent": ...}`
(the `agent` field is never read by the tree and is not recorded). -/
inductive TaskOutcome where
  | raise
  | result (status : String) (data : Dict)
deriving DecidableEq, Repr

/-- Python truthiness of a slot value (`None` or a dict):
`None` and the empty dict are falsy. -/
def truthy : Option Dict → Bool
  | none => false
  | some d => decide (d ≠ [])

/-- `SubAgentAction.update`: run the sub-agent inside `try`; an
exception gives `FAILURE` and no write; a returned result writes
`result["data"]` into the destination slot when `context_key` is set
and `result.get("status") == "success"`, and the node then returns
`SUCCESS` whatever the status was. -/
def actionTick (beh : SharedState → TaskOutcome) (key : Option SlotName)
    (s : SharedState) : Status × SharedState :=
  match beh s with
  | .raise => (.failure, s)
  | .result st d =>
      match key with
      | some k => if st = "success" then (.success, s.setSlot k d) else (.success, s)
      | none => (.success, s)

/-- `BriefingCondition.update`: `SUCCESS` iff both gathering slots are
truthy (`if weather_data and news_data:`). -/
def conditionStatus (s : SharedState) : Status :=
  if truthy s.weather_data && truthy s.news_data then .success else .failure

/-- The condition node's tick: a pure read, the state is untouched. -/
def conditionTick (s : SharedState) : Status × SharedState :=
  (conditionStatus s, s)

/-- Node-invocation events of one tick, in the order they occur on the
single tick thread; start/end pairs bracket each action's execution. -/
inductive Event where
  | weatherStart
  | weatherEnd
  | newsStart
  | newsEnd
  | tickCondition
  | synthStart
  | synthEnd
deriving DecidableEq, Repr

/-- The `DataGathering` composite:
`py_trees.composites.Parallel(policy=SuccessOnAll())` over the weather
and news actions.  py_trees ticks the children sequentially in list
order on the calling thread — weather runs to completion, then news —
and combines the statuses only after every child has been ticked:
any `FAILURE` gives `FAILURE`, all `SUCCESS` gives `SUCCESS`,
otherwise `RUNNING`. -/
def parallelTick (wb nb : SharedState → TaskOutcome) (s : SharedState) :
    Status × SharedState × List Event :=
  let w := actionTick wb (some .weather) s
  let n := actionTick nb (some .news) w.2
  let st := if w.1 = Status.failure ∨ n.1 = Status.failure then Status.failure
            else if w.1 = Status.success ∧ n.1 = Status.success then Status.success
            else Status.running
  (st, n.2, [.weatherStart, .weatherEnd, .newsStart, .newsEnd])

/-- One tick of the root `DailyBriefingSequence`
(`py_trees.composites.Sequence(memory=True)` with children
`[DataGathering, DataReadyCheck, BriefingSynthesis]`), as driven by
`BehaviourTree.tick`: children are ticked left to right and the
sequence stops at the first child that does not return `SUCCESS`,
returning that child's status; with all three `SUCCESS` it returns
`SUCCESS`.  (The memory feature only matters for `RUNNING` children,
which do not occur here; each engine run performs exactly one tick,
re-initialised from the first child.) -/
def rootTick (wb nb sb : SharedState → TaskOutcome) (s : SharedState) :
    Status × SharedState × List Event :=
  let p := parallelTick wb nb s
  if p.1 ≠ Status.success then p
  else
    let s1 := p.2.1
    let c := conditionTick s1
    if c.1 ≠ Status.success then (c.1, c.2, p.2.2 ++ [Event.tickCondition])
    else
      let a := actionTick sb (some .briefing) c.2
      (a.1, a.2, p.2.2 ++ [Event.tickCondition, Event.synthStart, Event.synthEnd])

/-- `WeatherAgent.execute`: defaults the location to `"San Francisco"`,
collects the weather payload, returns a success result dict. -/
def weatherExecute (ctx : RunContext) (api : ApiOutcome WeatherJson)
    (now : String) : TaskOutcome :=
  TaskOutcome.result "success" (get_weather (ctx.location.getD "San Francisco") api now)

/-- `NewsAgent.execute`: defaults the topic to `"technology"` and the
item count (`news_count`) to `3`, collects the headlines payload,
returns a success result dict. -/
def newsExecute (ctx : RunContext) (api : ApiOutcome (List String))
    (now : String) : TaskOutcome :=
  TaskOutcome.result "success"
    (get_top_headlines (ctx.topic.getD "technology") (ctx.news_count.getD 3) api now)

/-- `SynthesizerAgent.execute` as invoked by `SubAgentAction.update`,
which copies the `weather_data` and `news_data` slot values (possibly
`None`) into the agent's context: a raised error inside
`synthesize_briefing` makes the whole call raise; otherwise the
briefing is wrapped as `{"briefing": ...}` in a success result. -/
def synthesizerExecute (w n : Option Dict) (api : SynthApi)
    (today : String) : TaskOutcome :=
  match synthesize_briefing w n api today with
  | .ok b => .result "success" [("briefing", PVal.str b)]
  | .error _ => .raise

/-- The weather action's behaviour in the tree: `execute` on the run
context copied out of the shared state. -/
def weatherBeh (api : ApiOutcome WeatherJson) (now : String) :
    SharedState → TaskOutcome :=
  fun s => weatherExecute s.context api now

/-- The news action's behaviour in the tree. -/
def newsBeh (api : ApiOutcome (List String)) (now : String) :
    SharedState → TaskOutcome :=
  fun s => newsExecute s.context api now

/-- The synthesis action's behaviour in the tree: `update` injects the
two gathering slots into the agent's context. -/
def synthBeh (api : SynthApi) (today : String) :
    SharedState → TaskOutcome :=
  fun s => synthesizerExecute s.weather_data s.news_data api today

/-- The fixed error string returned by `generate_briefing` when the
briefing cannot be read back (the non-ASCII escapes reproduce the
source file's literal characters). -/
def errorMsg : String := "âŒ Failed to generate daily briefing"

/-- The external-call outcomes and clock readings consumed by one
engine run. -/
structure Env where
  weatherApi : ApiOutcome WeatherJson
  newsApi : ApiOutcome (List String)
  synthApi : SynthApi
  weatherTime : String
  newsTime : String
  today : String
deriving DecidableEq, Repr

/-- The context-installation step of `generate_briefing`: replace
`shared_state["context"]` with the new run's inputs, `news_count`
fixed at `3`.  Nothing else in the shared state is touched before the
tick. -/
def installContext (location topic : String) (s : SharedState) : SharedState :=
  { s with context := { location := some location, topic := some topic, news_count := some 3 } }

/-- `DailyBriefingAgent.generate_briefing`: install the context, tick
the root once, then read the briefing back: if the briefing slot holds
a truthy dict containing the key `"briefing"`, return its value,
otherwise return the fixed error message.  The resulting shared state
is carried alongside the returned text (the agent object keeps it
between runs). -/
def generate_briefing (location topic : String) (e : Env) (s : SharedState) :
    String × SharedState :=
  let s0 := installContext location topic s
  let r := rootTick (weatherBeh e.weatherApi e.weatherTime)
                    (newsBeh e.newsApi e.newsTime)
                    (synthBeh e.synthApi e.today) s0
  let s1 := r.2.1
  match s1.briefing.bind (fun bd => dictGet bd "briefing") with
  | some v => (pyStr v, s1)
  | none => (errorMsg, s1)

/-! ### Concrete run environments used by counterexamples and witnesses -/

/-- A run environment with both gathering backends failing (forcing the
fallback tables) and a synthesis backend returning the text `"B1"`. -/
def envA : Env :=
  { weatherApi := ApiOutcome.err, newsApi := ApiOutcome.err, synthApi := SynthApi.ok "B1",
    weatherTime := "T1", newsTime := "T2", today := "D1" }

/-- A run environment whose synthesis backend returns empty text. -/
def envB : Env :=
  { weatherApi := ApiOutcome.err, newsApi := ApiOutcome.err, synthApi := SynthApi.ok "",
    weatherTime := "T1", newsTime := "T2", today := "D1" }

/-- A run environment whose weather backend returns parsed JSON whose
`condition` field is a non-string (here the number 5) and whose
synthesis backend call fails, so the fallback template's
`condition.lower()` raises inside the synthesis task. -/
def envC : Env :=
  { weatherApi := ApiOutcome.json { condition := some (PVal.int 5) },
    newsApi := ApiOutcome.err, synthApi := SynthApi.err,
    weatherTime := "T1", newsTime := "T2", today := "D1" }

/-- A task behaviour that returns a result dict with a non-success
status (so the action performs no slot write). -/
def skipBeh : SharedState → TaskOutcome := fun _ => TaskOutcome.result "skip" []

/-- A task behaviour that returns a success result dict. -/
def stubOkBeh : SharedState → TaskOutcome :=
  fun _ => TaskOutcome.result "success" [("k", PVal.str "v")]


/-! ### Generic node-level lemmas -/

/-- An action node's tick only ever reports `SUCCESS` or `FAILURE`
(`RUNNING` is never produced by `SubAgentAction.update`). -/
lemma actionTick_status_cases (beh : SharedState → TaskOutcome) (key : Option SlotName)
    (s : SharedState) :
    (actionTick beh key s).1 = Status.success ∨ (actionTick beh key s).1 = Status.failure := by
  rcases hb : beh s with _ | ⟨st, d⟩
  · simp [actionTick, hb]
  · rcases key with _ | k <;> simp [actionTick, hb]
    split <;> simp

/-- An action node never touches the run context. -/
lemma actionTick_context (beh : SharedState → TaskOutcome) (key : Option SlotName)
    (s : SharedState) : (actionTick beh key s).2.context = s.context := by
  rcases hb : beh s with _ | ⟨st, d⟩
  · simp [actionTick, hb]
  · rcases key with _ | k
    · simp [actionTick, hb]
    · cases k <;> simp [actionTick, hb, SharedState.setSlot] <;> split <;> rfl

/-- An action node whose destination is not the briefing slot leaves the
briefing slot unchanged. -/
lemma actionTick_briefing (beh : SharedState → TaskOutcome) (key : Option SlotName)
    (hk : key ≠ some SlotName.briefing) (s : SharedState) :
    (actionTick beh key s).2.briefing = s.briefing := by
  rcases hb : beh s with _ | ⟨st, d⟩
  · simp [actionTick, hb]
  · rcases key with _ | k
    · simp [actionTick, hb]
    · cases k <;> simp_all [actionTick, hb, SharedState.setSlot] <;> split <;> rfl

/-- The gathering composite's trace: the weather child is ticked to
completion, then the news child, on the single tick thread. -/
lemma parallelTick_trace (wb nb : SharedState → TaskOutcome) (s : SharedState) :
    (parallelTick wb nb s).2.2 =
      [Event.weatherStart, Event.weatherEnd, Event.newsStart, Event.newsEnd] := rfl

/-- The gathering composite never touches the run context. -/
lemma parallelTick_context (wb nb : SharedState → TaskOutcome) (s : SharedState) :
    (parallelTick wb nb s).2.1.context = s.context := by
  unfold parallelTick
  exact (actionTick_context nb _ _).trans (actionTick_context wb _ _)

/-- The gathering composite never touches the briefing slot. -/
lemma parallelTick_briefing (wb nb : SharedState → TaskOutcome) (s : SharedState) :
    (parallelTick wb nb s).2.1.briefing = s.briefing := by
  unfold parallelTick
  exact ((actionTick_briefing nb _ (by simp) _).trans (actionTick_briefing wb _ (by simp) _))

/-- With synchronous children the gathering composite reports `SUCCESS`
or `FAILURE`, never `RUNNING`. -/
lemma parallelTick_status_cases (wb nb : SharedState → TaskOutcome) (s : SharedState) :
    (parallelTick wb nb s).1 = Status.success ∨ (parallelTick wb nb s).1 = Status.failure := by
  unfold parallelTick
  rcases actionTick_status_cases wb (some SlotName.weather) s with h1 | h1 <;>
    rcases actionTick_status_cases nb (some SlotName.news)
      (actionTick wb (some SlotName.weather) s).2 with h2 | h2 <;>
    simp [h1, h2]

/-- The condition node never touches the run context. -/
lemma conditionTick_context (s : SharedState) : (conditionTick s).2.context = s.context := rfl

/-- A full root tick never touches the run context. -/
lemma rootTick_context (wb nb sb : SharedState → TaskOutcome) (s : SharedState) :
    (rootTick wb nb sb s).2.1.context = s.context := by
  unfold rootTick
  dsimp only
  split
  · exact parallelTick_context wb nb s
  · split
    · exact parallelTick_context wb nb s
    · exact (actionTick_context sb _ _).trans (parallelTick_context wb nb s)

/-! ### Shape lemmas for the real agents' payloads -/

/-- Whatever the backend outcome, `get_weather` returns the five-field
payload dict, with the run's location and timestamp; the temperature,
condition and humidity values are whatever the backend supplied (or
the defaults / fallback-table entries), so they are arbitrary values. -/
lemma weather_payload_shape (loc : String) (api : ApiOutcome WeatherJson) (now : String) :
    ∃ (tv cv hv : PVal),
      get_weather loc api now =
        [("location", PVal.str loc), ("temperature", tv),
         ("condition", cv), ("humidity", hv),
         ("timestamp", PVal.str now)] := by
  cases api <;> exact ⟨_, _, _, rfl⟩

/-- Whatever the backend outcome, `get_top_headlines` returns the
four-field payload dict, with the run's topic and timestamp. -/
lemma news_payload_shape (topic : String) (count : Int) (api : ApiOutcome (List String))
    (now : String) :
    ∃ hs : List String,
      get_top_headlines topic count api now =
        [("topic", PVal.str topic), ("headlines", PVal.strList hs),
         ("count", PVal.int hs.length), ("timestamp", PVal.str now)] := by
  cases api <;> exact ⟨_, rfl⟩

/-- On gathering-shaped payload dicts, when the synthesis backend call
returns text the synthesizer cannot raise: the `try` block only
iterates the headlines (a list of strings) and titles the topic (a
string) before returning the stripped backend text, and the weather
values — which may be null or non-strings — are only interpolated.
(When the backend call fails this is not so: the fallback template's
`condition.lower()` raises on a non-string condition.) -/
lemma synthesize_ok_text (loc w_ts tp n_ts : String) (tv cv hv : PVal)
    (hs : List String) (cnt : Int) (text today : String) :
    synthesize_briefing
        (some [("location", PVal.str loc), ("temperature", tv),
               ("condition", cv), ("humidity", hv),
               ("timestamp", PVal.str w_ts)])
        (some [("topic", PVal.str tp), ("headlines", PVal.strList hs),
               ("count", PVal.int cnt), ("timestamp", PVal.str n_ts)])
        (SynthApi.ok text) today = Except.ok (pyStrip text) := rfl

/-- With the three reference agents wired in and a synthesis backend
call that returns text, the root tick succeeds, fills both gathering
slots with this run's payloads and overwrites the briefing slot with
the stripped backend text.  (The restriction to a text-returning
synthesis backend is essential: under a failing synthesis call a
non-string weather condition makes the fallback template's `lower()`
call raise, the synthesis action fail and the briefing slot stay
unwritten.) -/
lemma rootTick_realOk (wApi : ApiOutcome WeatherJson) (nApi : ApiOutcome (List String))
    (text wt nt today : String) (s0 : SharedState) :
    rootTick (weatherBeh wApi wt) (newsBeh nApi nt)
        (synthBeh (SynthApi.ok text) today) s0
      = (Status.success,
         { context := s0.context,
           weather_data := some (get_weather (s0.context.location.getD "San Francisco")
                                   wApi wt),
           news_data := some (get_top_headlines (s0.context.topic.getD "technology")
                                (s0.context.news_count.getD 3) nApi nt),
           briefing := some [("briefing", PVal.str (pyStrip text))] },
         [Event.weatherStart, Event.weatherEnd, Event.newsStart, Event.newsEnd,
          Event.tickCondition, Event.synthStart, Event.synthEnd]) := by
  obtain ⟨tv, cv, hv, hW⟩ :=
    weather_payload_shape (s0.context.location.getD "San Francisco") wApi wt
  obtain ⟨hs, hN⟩ :=
    news_payload_shape (s0.context.topic.getD "technology") (s0.context.news_count.getD 3)
      nApi nt
  have hp0 : parallelTick (weatherBeh wApi wt) (newsBeh nApi nt) s0 =
      (Status.success,
       { context := s0.context,
         weather_data := some (get_weather (s0.context.location.getD "San Francisco")
                                 wApi wt),
         news_data := some (get_top_headlines (s0.context.topic.getD "technology")
                              (s0.context.news_count.getD 3) nApi nt),
         briefing := s0.briefing },
       [Event.weatherStart, Event.weatherEnd, Event.newsStart, Event.newsEnd]) := rfl
  rw [hW, hN] at hp0
  have hsb : synthBeh (SynthApi.ok text) today
      { context := s0.context,
        weather_data := some [("location", PVal.str (s0.context.location.getD "San Francisco")),
          ("temperature", tv), ("condition", cv), ("humidity", hv),
          ("timestamp", PVal.str wt)],
        news_data := some [("topic", PVal.str (s0.context.topic.getD "technology")),
          ("headlines", PVal.strList hs), ("count", PVal.int hs.length),
          ("timestamp", PVal.str nt)],
        briefing := s0.briefing } =
      TaskOutcome.result "success" [("briefing", PVal.str (pyStrip text))] := by
    simp only [synthBeh, synthesizerExecute, synthesize_ok_text]
  rw [hW, hN]
  unfold rootTick
  rw [hp0]
  simp only [ne_eq, reduceCtorEq, not_false_eq_true, reduceIte, conditionTick, conditionStatus,
    truthy, Bool.and_self, actionTick]
  rw [hsb]
  rfl

/-- Writing one slot leaves every other slot unchanged. -/
lemma getSlot_setSlot_ne (s : SharedState) (k k' : SlotName) (d : Dict)
    (h : k' ≠ k) : (s.setSlot k d).getSlot k' = s.getSlot k' := by
  cases k <;> cases k' <;> simp_all [SharedState.setSlot, SharedState.getSlot]

/-- Characterisation of Python truthiness of a slot value. -/
lemma truthy_iff (o : Option Dict) :
    truthy o = true ↔ ∃ d, o = some d ∧ d ≠ [] := by
  cases o <;> simp [truthy]

/-! ## Claim theorems -/

/-! ### Claim C1 -/

/-- C1, counterexample: `generate_briefing` does not clear the output
slots before ticking.  After a first completed run (environment `envA`,
fallback gathering data for London, briefing text `"B1"`), the state a
second run would tick from — `installContext` is everything the engine
does before `tick()` — still holds the first run's briefing and weather
payloads, refuting the claim that all prior output slots are cleared
before the root is ticked. -/
theorem c1_counterexample :
    ((installContext "Paris" "world"
        (generate_briefing "London" "world" envA initialState).2).briefing
      = some [("briefing", PVal.str "B1")]) ∧
    ((installContext "Paris" "world"
        (generate_briefing "London" "world" envA initialState).2).weather_data
      = some [("location", PVal.str "London"), ("temperature", PVal.int 15),
              ("condition", PVal.str "Rainy"), ("humidity", PVal.int 80),
              ("timestamp", PVal.str "T1")]) := by
  constructor <;> decide

/-- C1, amended: at the start of every run the engine installs the new
run context (with `news_count` fixed at 3) into the shared state but
clears nothing: all three output slots enter the tick with whatever an
earlier run left in them. -/
theorem c1_theorem :
    ∀ (location topic : String) (s : SharedState),
      installContext location topic s =
        { context := { location := some location, topic := some topic, news_count := some 3 },
          weather_data := s.weather_data,
          news_data := s.news_data,
          briefing := s.briefing } := by
  intro location topic s
  rfl

/-! ### Claim C2 -/

/-- C2, counterexample, refuting both halves of the claim.  First, when
the synthesis backend returns empty text (environment `envB`), the run
returns the empty string through the success path — an empty result
with no error.  Second, the failure branch is reachable and carries no
cause information: with a parsed weather reply whose `condition` is a
non-string and a failing synthesis backend call (environment `envC`),
the fallback template's `condition.lower()` raises, the synthesis
action fails, the briefing slot stays unwritten, and the run returns
the single fixed message `errorMsg`, which names no failing task and
distinguishes no failure cause. -/
theorem c2_counterexample :
    ((generate_briefing "London" "world" envB initialState).1 = "" ∧
     (generate_briefing "London" "world" envB initialState).2.briefing
       = some [("briefing", PVal.str "")]) ∧
    ((generate_briefing "London" "world" envC initialState).1 = errorMsg ∧
     (generate_briefing "London" "world" envC initialState).2.briefing = none) := by
  refine ⟨⟨?_, ?_⟩, ?_, ?_⟩ <;> decide

/-- C2, amended: every run returns either the text read back from the
briefing slot — possibly empty, since an empty synthesis-backend reply
is returned as empty text with no error — or, when the slot holds no
readable briefing (reachable, per the counterexample, when the
synthesis task raises on a non-string weather value under a failing
synthesis backend call), the single fixed error message `errorMsg`,
which does not distinguish failure causes.  Moreover every run whose
synthesis backend call returns text succeeds: it stores that text,
stripped, in the briefing slot and returns it. -/
theorem c2_theorem :
    ∀ (location topic : String) (e : Env) (s : SharedState),
      ((∃ v, (generate_briefing location topic e s).2.briefing.bind
                (fun bd => dictGet bd "briefing") = some v ∧
             (generate_briefing location topic e s).1 = pyStr v) ∨
       ((generate_briefing location topic e s).2.briefing.bind
            (fun bd => dictGet bd "briefing") = none ∧
        (generate_briefing location topic e s).1 = errorMsg)) ∧
      (∀ text : String, e.synthApi = SynthApi.ok text →
        (generate_briefing location topic e s).2.briefing
          = some [("briefing", PVal.str (pyStrip text))] ∧
        (generate_briefing location topic e s).1 = pyStrip text) := by
  intro location topic e s
  constructor
  · unfold generate_briefing
    dsimp only
    split
    · rename_i v hv
      exact Or.inl ⟨v, hv, rfl⟩
    · rename_i hv
      exact Or.inr ⟨hv, rfl⟩
  · intro text he
    have h := rootTick_realOk e.weatherApi e.newsApi text e.weatherTime e.newsTime e.today
      (installContext location topic s)
    refine ⟨?_, ?_⟩ <;> simp only [generate_briefing, he, h] <;> rfl

/-- C2, witness: at a concrete text-returning synthesis backend the run
stores and returns the stripped backend text. -/
theorem c2_witness :
    (generate_briefing "London" "world" envA initialState).2.briefing
      = some [("briefing", PVal.str (pyStrip "B1"))] ∧
    (generate_briefing "London" "world" envA initialState).1 = pyStrip "B1" := by
  have h := c2_theorem "London" "world" envA initialState
  exact h.2 "B1" rfl

/-! ### Claim C3 -/

/-- C3, counterexample: the gathering "Parallel" composite does not run
its children on concurrent workers.  In a concrete run the composite's
trace is the fixed sequential order — the weather task starts and
finishes before the news task starts — and the news child is ticked on
the state already containing the weather child's completed write,
refuting concurrent execution ("not a fixed alternation"). -/
theorem c3_counterexample :
    ((parallelTick (weatherBeh ApiOutcome.err "T1") (newsBeh ApiOutcome.err "T2")
        (installContext "London" "world" initialState)).2.2
      = [Event.weatherStart, Event.weatherEnd, Event.newsStart, Event.newsEnd]) ∧
    ((actionTick (weatherBeh ApiOutcome.err "T1") (some SlotName.weather)
        (installContext "London" "world" initialState)).2.weather_data
      = some [("location", PVal.str "London"), ("temperature", PVal.int 15),
              ("condition", PVal.str "Rainy"), ("humidity", PVal.int 80),
              ("timestamp", PVal.str "T1")]) := by
  constructor <;> decide

/-- C3, amended: on every tick the gathering composite ticks its two
children sequentially on the single tick thread, in the fixed order
weather-then-news (the news child is invoked on the post-weather
state), and computes its status only after both children have been
ticked: `SUCCESS` exactly when both children succeeded. -/
theorem c3_theorem :
    ∀ (wb nb : SharedState → TaskOutcome) (s : SharedState),
      ((parallelTick wb nb s).2.2
        = [Event.weatherStart, Event.weatherEnd, Event.newsStart, Event.newsEnd]) ∧
      ((parallelTick wb nb s).2.1
        = (actionTick nb (some SlotName.news) (actionTick wb (some SlotName.weather) s).2).2) ∧
      ((parallelTick wb nb s).1 = Status.success ↔
        (actionTick wb (some SlotName.weather) s).1 = Status.success ∧
        (actionTick nb (some SlotName.news) (actionTick wb (some SlotName.weather) s).2).1
          = Status.success) := by
  intro wb nb s
  refine ⟨rfl, rfl, ?_⟩
  rcases actionTick_status_cases wb (some SlotName.weather) s with h1 | h1 <;>
    rcases actionTick_status_cases nb (some SlotName.news)
      (actionTick wb (some SlotName.weather) s).2 with h2 | h2 <;>
    simp [parallelTick, h1, h2]

/-! ### Claim C4 -/

/-- C4, counterexample: the engine entry point has no item-count
parameter — `generate_briefing(location, topic)` installs
`news_count = 3` unconditionally — so in a concrete run the context
carries item count 3 and the news payload holds exactly the 3 fallback
headlines, refuting the claim that the caller chooses the number of
news items through a third `itemCount` parameter. -/
theorem c4_counterexample :
    ((generate_briefing "London" "world" envA initialState).2.context.news_count = some 3) ∧
    ((generate_briefing "London" "world" envA initialState).2.news_data.bind
        (fun d => dictGet d "count") = some (PVal.int 3)) ∧
    ((generate_briefing "London" "world" envA initialState).2.news_data.bind
        (fun d => dictGet d "headlines")
      = some (PVal.strList (worldHeadlines.take 3))) := by
  refine ⟨?_, ?_, ?_⟩ <;> decide

/-- C4, amended: the entry point takes only a location and a topic (and
returns a single string, not a text-error pair); the news item count is
fixed by the engine at 3 for every run and cannot be chosen by the
caller. -/
theorem c4_theorem :
    ∀ (location topic : String) (e : Env) (s : SharedState),
      (generate_briefing location topic e s).2.context =
        { location := some location, topic := some topic, news_count := some 3 } := by
  intro location topic e s
  have h : (generate_briefing location topic e s).2 =
      (rootTick (weatherBeh e.weatherApi e.weatherTime) (newsBeh e.newsApi e.newsTime)
        (synthBeh e.synthApi e.today) (installContext location topic s)).2.1 := by
    unfold generate_briefing
    dsimp only
    split <;> rfl
  rw [h, rootTick_context]
  rfl

/-! ### Claim C5 -/

/-- C5: a task's internal error never escapes the action node: the tick
always reports plain `SUCCESS` or `FAILURE` (its total type carries no
exception); a raised error is converted to `FAILURE` with the shared
state untouched; and the weather task under a forced backend failure
substitutes its deterministic fallback data and still reports a success
result (the `get_weather` fallback-table path). -/
theorem c5_theorem :
    ∀ (beh : SharedState → TaskOutcome) (key : Option SlotName) (s : SharedState),
      ((actionTick beh key s).1 = Status.success ∨ (actionTick beh key s).1 = Status.failure) ∧
      (beh s = TaskOutcome.raise → actionTick beh key s = (Status.failure, s)) ∧
      (∀ (ctx : RunContext) (now : String),
        weatherExecute ctx ApiOutcome.err now =
          TaskOutcome.result "success" (get_weather (ctx.location.getD "San Francisco")
            ApiOutcome.err now)) := by
  intro beh key s
  refine ⟨actionTick_status_cases beh key s, ?_, fun ctx now => rfl⟩
  intro hr
  simp [actionTick, hr]

/-- C5, witness: a raising task at a concrete input is caught and
converted to a node-level `FAILURE` with the state unchanged. -/
theorem c5_witness :
    actionTick (fun _ => TaskOutcome.raise) (some SlotName.weather) initialState
      = (Status.failure, initialState) :=
  (c5_theorem (fun _ => TaskOutcome.raise) (some SlotName.weather) initialState).2.1 rfl

/-! ### Claim C6 -/

/-- C6: whenever the readiness condition would report `FAILURE` on the
state left by the gathering phase, the root sequence tick fails, the
synthesis action is never invoked (no synthesis event in the trace,
which stops at the condition if the condition was reached at all), and
the briefing slot is left exactly as it was before the tick. -/
theorem c6_theorem :
    ∀ (wb nb sb : SharedState → TaskOutcome) (s : SharedState),
      conditionStatus (parallelTick wb nb s).2.1 = Status.failure →
      (rootTick wb nb sb s).1 = Status.failure ∧
      (rootTick wb nb sb s).2.1.briefing = s.briefing ∧
      Event.synthStart ∉ (rootTick wb nb sb s).2.2 ∧
      Event.synthEnd ∉ (rootTick wb nb sb s).2.2 ∧
      (Event.tickCondition ∈ (rootTick wb nb sb s).2.2 →
        (rootTick wb nb sb s).2.2 =
          [Event.weatherStart, Event.weatherEnd, Event.newsStart, Event.newsEnd,
           Event.tickCondition]) := by
  intro wb nb sb s hc
  have hbr := parallelTick_briefing wb nb s
  have htr := parallelTick_trace wb nb s
  unfold rootTick
  dsimp only
  split
  · rename_i h
    have hp : (parallelTick wb nb s).1 = Status.failure := by
      rcases parallelTick_status_cases wb nb s with h1 | h1
      · exact absurd h1 h
      · exact h1
    rw [htr]
    exact ⟨hp, hbr, by decide, by decide, fun hm => absurd hm (by decide)⟩
  · split
    · rw [htr]
      refine ⟨hc, hbr, ?_, ?_, ?_⟩
      · dsimp only
        decide
      · dsimp only
        decide
      · intro
        rfl
    · rename_i hcs
      rw [show (conditionTick (parallelTick wb nb s).2.1).1 = Status.failure from hc] at hcs
      exact absurd (by decide) hcs

/-- C6, witness: with a gathering task that returns a non-success
result (so its slot stays empty) the condition fails, the root tick
fails, the briefing slot is untouched and synthesis is never invoked. -/
theorem c6_witness :
    (rootTick skipBeh stubOkBeh stubOkBeh initialState).1 = Status.failure ∧
    (rootTick skipBeh stubOkBeh stubOkBeh initialState).2.1.briefing = initialState.briefing ∧
    Event.synthStart ∉ (rootTick skipBeh stubOkBeh stubOkBeh initialState).2.2 := by
  have h := c6_theorem skipBeh stubOkBeh stubOkBeh initialState (by decide)
  exact ⟨h.1, h.2.1, h.2.2.1⟩

/-! ### Claim C7 -/

/-- C7, counterexample: a task that reports failure through its result
dict (`{"status": "failure", ...}`) does not make the node return
`FAILURE`: `SubAgentAction.update` only consults the status for the
slot write and returns `SUCCESS` for every non-raising task, refuting
the claim that on a task-reported Failure the node returns Failure. -/
theorem c7_counterexample :
    actionTick (fun _ => TaskOutcome.result "failure" [("reason", PVal.str "backend down")])
        (some SlotName.weather) initialState
      = (Status.success, initialState) := rfl

/-- C7, amended: an action node leaves the context and every other slot
unchanged and writes at most once, to its own destination slot, exactly
when the task returns a result with status `"success"`; a raising task
yields `FAILURE` with no write; but a task result with any other status
yields no write and still `SUCCESS` (not `FAILURE` as claimed). -/
theorem c7_theorem :
    ∀ (beh : SharedState → TaskOutcome) (k : SlotName) (s : SharedState),
      ((actionTick beh (some k) s).2.context = s.context) ∧
      (∀ k' : SlotName, k' ≠ k →
        (actionTick beh (some k) s).2.getSlot k' = s.getSlot k') ∧
      (∀ st d, beh s = TaskOutcome.result st d →
        (actionTick beh (some k) s).1 = Status.success ∧
        (st = "success" → (actionTick beh (some k) s).2 = s.setSlot k d) ∧
        (st ≠ "success" → (actionTick beh (some k) s).2 = s)) ∧
      (beh s = TaskOutcome.raise → actionTick beh (some k) s = (Status.failure, s)) := by
  intro beh k s
  refine ⟨actionTick_context beh (some k) s, ?_, ?_, ?_⟩
  · intro k' hk'
    rcases hb : beh s with _ | ⟨st, d⟩
    · simp [actionTick, hb]
    · by_cases hst : st = "success" <;>
        simp [actionTick, hb, hst, getSlot_setSlot_ne s k k' _ hk']
  · intro st d hb
    refine ⟨?_, ?_, ?_⟩
    · by_cases hst : st = "success" <;> simp [actionTick, hb, hst]
    · intro hst
      simp [actionTick, hb, hst]
    · intro hst
      simp [actionTick, hb, hst]
  · intro hr
    simp [actionTick, hr]

/-- C7, witness: at a concrete success-status task the node writes its
own slot and leaves the other slots unchanged. -/
theorem c7_witness :
    (actionTick (fun _ => TaskOutcome.result "success" [("x", PVal.str "1")])
        (some SlotName.weather) initialState).2
      = initialState.setSlot SlotName.weather [("x", PVal.str "1")] ∧
    (actionTick (fun _ => TaskOutcome.result "success" [("x", PVal.str "1")])
        (some SlotName.weather) initialState).2.getSlot SlotName.news
      = initialState.getSlot SlotName.news :=
  ⟨((c7_theorem (fun _ => TaskOutcome.result "success" [("x", PVal.str "1")])
      SlotName.weather initialState).2.2.1 "success" [("x", PVal.str "1")] rfl).2.1 rfl,
   (c7_theorem (fun _ => TaskOutcome.result "success" [("x", PVal.str "1")])
      SlotName.weather initialState).2.1 SlotName.news (by decide)⟩

/-! ### Claim C8 -/

/-- C8: the readiness condition reports `SUCCESS` exactly when both the
weather slot and the news slot are populated with a non-empty dict,
reports `FAILURE` otherwise (never `RUNNING`), and performs no write:
the shared state it returns is the one it was given. -/
theorem c8_theorem :
    ∀ s : SharedState,
      ((conditionTick s).2 = s) ∧
      ((conditionTick s).1 = Status.success ↔
        (∃ wd, s.weather_data = some wd ∧ wd ≠ []) ∧
        (∃ nd, s.news_data = some nd ∧ nd ≠ [])) ∧
      ((conditionTick s).1 = Status.success ∨ (conditionTick s).1 = Status.failure) := by
  intro s
  refine ⟨rfl, ?_, ?_⟩
  · simp only [conditionTick, conditionStatus]
    constructor
    · intro h
      split at h
      · rename_i hcond
        rw [Bool.and_eq_true] at hcond
        exact ⟨truthy_iff s.weather_data |>.mp hcond.1, truthy_iff s.news_data |>.mp hcond.2⟩
      · exact absurd h (by decide)
    · intro ⟨hw, hn⟩
      rw [if_pos]
      rw [Bool.and_eq_true]
      exact ⟨truthy_iff s.weather_data |>.mpr hw, truthy_iff s.news_data |>.mpr hn⟩
  · simp only [conditionTick, conditionStatus]
    split
    · left; rfl
    · right; rfl

/-! ### Claim C9 -/

/-- C9: for the unknown location `"Atlantis"` (no fallback-table entry)
under a forced backend failure, every execution of the weather task
returns the same payload up to the injected timestamp — the designated
`"Default"` pair: condition `"Clear"`, temperature `20` (humidity 50). -/
theorem c9_theorem :
    ∀ now now2 : String,
      weatherFallbackTable "Atlantis" = none ∧
      (get_weather "Atlantis" ApiOutcome.err now =
        [("location", PVal.str "Atlantis"), ("temperature", PVal.int 20),
         ("condition", PVal.str "Clear"), ("humidity", PVal.int 50),
         ("timestamp", PVal.str now)]) ∧
      ((get_weather "Atlantis" ApiOutcome.err now).take 4 =
        (get_weather "Atlantis" ApiOutcome.err now2).take 4) ∧
      (dictGet (get_weather "Atlantis" ApiOutcome.err now) "condition"
        = some (PVal.str "Clear")) ∧
      (dictGet (get_weather "Atlantis" ApiOutcome.err now) "temperature"
        = some (PVal.int 20)) := by
  intro now now2
  exact ⟨rfl, rfl, rfl, rfl, rfl⟩

/-! ### Claim C10 -/

/-- C10: when a run-context key is missing each task substitutes its
fixed default — location `"San Francisco"`, topic `"technology"`, item
count `3` — and the news fallback path looks the topic up
case-insensitively, mapping every topic whose lowercasing is absent
from the table to the `"world"` headline list. -/
theorem c10_theorem :
    (∀ (ctx : RunContext) (api : ApiOutcome WeatherJson) (now : String),
      ctx.location = none →
      weatherExecute ctx api now =
        TaskOutcome.result "success" (get_weather "San Francisco" api now)) ∧
    (∀ (ctx : RunContext) (api : ApiOutcome (List String)) (now : String),
      ctx.topic = none → ctx.news_count = none →
      newsExecute ctx api now =
        TaskOutcome.result "success" (get_top_headlines "technology" 3 api now)) ∧
    (∀ (topic : String) (count : Int) (now : String),
      newsFallbackLookup (pyLowerStr topic) = none →
      dictGet (get_top_headlines topic count ApiOutcome.err now) "headlines" =
        some (PVal.strList (pySliceTo count worldHeadlines))) ∧
    (∀ (t1 t2 : String) (count : Int) (now : String),
      pyLowerStr t1 = pyLowerStr t2 →
      dictGet (get_top_headlines t1 count ApiOutcome.err now) "headlines" =
        dictGet (get_top_headlines t2 count ApiOutcome.err now) "headlines") := by
  refine ⟨?_, ?_, ?_, ?_⟩
  · intro ctx api now h
    simp [weatherExecute, h]
  · intro ctx api now ht hc
    simp [newsExecute, ht, hc]
  · intro topic count now h
    unfold get_top_headlines
    rw [h]
    rfl
  · intro t1 t2 count now h
    unfold get_top_headlines
    rw [h]
    rfl

/-- C10, witness: concrete instances — an empty context defaults to
San Francisco / technology / 3; topic `"Sports"` (lowercased
`"sports"`, not in the table) falls back to the world list; the
lookup for `"TECHnology"` matches `"technology"`. -/
theorem c10_witness :
    (weatherExecute { location := none, topic := none, news_count := none }
        ApiOutcome.err "T"
      = TaskOutcome.result "success" (get_weather "San Francisco" ApiOutcome.err "T")) ∧
    (newsExecute { location := none, topic := none, news_count := none }
        ApiOutcome.err "T"
      = TaskOutcome.result "success" (get_top_headlines "technology" 3 ApiOutcome.err "T")) ∧
    (dictGet (get_top_headlines "Sports" 3 ApiOutcome.err "T") "headlines"
      = some (PVal.strList (pySliceTo 3 worldHeadlines))) ∧
    (dictGet (get_top_headlines "TECHnology" 3 ApiOutcome.err "T") "headlines"
      = dictGet (get_top_headlines "technology" 3 ApiOutcome.err "T") "headlines") :=
  ⟨c10_theorem.1 _ _ _ rfl,
   c10_theorem.2.1 _ _ _ rfl rfl,
   c10_theorem.2.2.1 "Sports" 3 "T" (by decide),
   c10_theorem.2.2.2 "TECHnology" "technology" 3 "T" (by decide)⟩
